import Mathlib

/-!
Verification of `src/functions/zip-to-parquet-python/main.py` (UGS-GIO/ugs-ingest).

The repository is a single Cloud Function `convert_to_geoparquet(event, context)`:
on upload of a zip archive to a bucket it downloads the archive, inspects its
entry list for a geodatabase / shapefile / CSV source, converts the selected
source to GeoParquet via GDAL and uploads the result.

The embedding below mirrors the Python line by line.  External effects
(download, zip open, GDAL conversion, upload) are modelled by an `Env` record
saying which of them raises an exception and whether the conversion leaves an
output file; the function is then a pure map from `Env × TriggerEvent` to a
`RunResult` recording the termination mode, the log lines printed, the selected
source path, the final state of the two scratch files and the upload activity.
-/

namespace UgsIngest

/-- Lowercase a string character by character: model of Python `str.lower()`
(the names involved are ASCII, where `Char.toLower` agrees with Python). -/
def lowerStr (s : String) : String :=
  String.mk (s.toList.map Char.toLower)

/-- `strEndsWith s suf` models Python `s.endswith(suf)`. -/
def strEndsWith (s suf : String) : Bool :=
  List.isSuffixOf suf.toList s.toList

/-- Split a character list on `'/'` (kernel-reducible helper for the
`pathlib.PurePosixPath` model). -/
def splitOnSlash : List Char → List (List Char)
  | [] => [[]]
  | c :: rest =>
    let r := splitOnSlash rest
    if c = '/' then [] :: r
    else
      match r with
      | [] => [[c]]
      | h :: t => (c :: h) :: t

/-- The normalised component list of a POSIX path: `pathlib` drops empty
components and `"."` components when parsing. -/
def pathComponents (p : String) : List String :=
  ((splitOnSlash p.toList).map String.mk).filter (fun c => c != "" && c != ".")

/-- Model of `str(PurePosixPath(p).parent)`: drop the last component.
`Path("a.gdb/").parent` is `"."`, `Path("sub/a.gdb/").parent` is `"sub"`. -/
def pathParentStr (p : String) : String :=
  let isAbs : Bool :=
    match p.toList with
    | '/' :: _ => true
    | _ => false
  let parent := (pathComponents p).dropLast
  if isAbs then "/" ++ String.intercalate "/" parent
  else if parent.isEmpty then "."
  else String.intercalate "/" parent

/-- Model of `PurePosixPath(p).name`: the final component. -/
def pathName (p : String) : String :=
  ((pathComponents p).getLast?).getD ""

/-- Index of the last `'.'` in a character list, if any. -/
def rfindDot (cs : List Char) : Option Nat :=
  (((List.range cs.length).filter (fun j => cs.getD j ' ' == '.')).getLast?)

/-- Model of `PurePosixPath(p).stem`: the final component with its last
suffix removed (a suffix needs a dot that is neither first nor last). -/
def pathStem (p : String) : String :=
  let name := pathName p
  let cs := name.toList
  match rfindDot cs with
  | some i => if 0 < i ∧ i < cs.length - 1 then String.mk (cs.take i) else name
  | none => name

/-- main.py line 50: entry naming a geodatabase container,
`f.lower().endswith('.gdb/')`. -/
def isGdbEntry (f : String) : Bool :=
  strEndsWith (lowerStr f) ".gdb/"

/-- main.py line 57: shapefile entry, `f.lower().endswith('.shp')`. -/
def isShpEntry (f : String) : Bool :=
  strEndsWith (lowerStr f) ".shp"

/-- main.py line 64: CSV entry, `f.lower().endswith('.csv')`. -/
def isCsvEntry (f : String) : Bool :=
  strEndsWith (lowerStr f) ".csv"

/-- main.py line 33: the GDAL virtual-filesystem address of the archive,
`f"/vsizip//vsigs/{bucket_name}/{file_name}"`. -/
def gcs_zip_path (bucket_name file_name : String) : String :=
  "/vsizip//vsigs/" ++ bucket_name ++ "/" ++ file_name

/-- Which kind of source entry was matched by the priority scan. -/
inductive SourceKind where
  | gdb
  | shp
  | csv
deriving Repr, DecidableEq

/-- main.py lines 47-67: the priority scan over `zf.namelist()`.  The Python is

    gdb_path = next((f for f in file_list if f.lower().endswith('.gdb/')), None)
    if gdb_path: ...
    elif not source_data_path: <shapefile check>
    elif not source_data_path: <CSV check>

`source_data_path` is still `None` when the chain is evaluated, so whenever the
geodatabase test misses, the first `elif` is taken; the second `elif` (the CSV
check) is syntactically present but unreachable.  The embedding keeps the exact
branch structure, dead branch included. -/
def selectSource (gcsZipPath : String) (file_list : List String) :
    Option (SourceKind × String) :=
  let source_data_path : Option (SourceKind × String) := none
  match file_list.find? isGdbEntry with
  | some gdb_path =>
      some (SourceKind.gdb, gcsZipPath ++ "/" ++ pathParentStr gdb_path)
  | none =>
      if source_data_path.isNone then
        match file_list.find? isShpEntry with
        | some shp_path => some (SourceKind.shp, gcsZipPath ++ "/" ++ shp_path)
        | none => source_data_path
      else if source_data_path.isNone then
        match file_list.find? isCsvEntry with
        | some csv_path => some (SourceKind.csv, gcsZipPath ++ "/" ++ csv_path)
        | none => source_data_path
      else source_data_path

/-- The log line printed when a source is found (main.py lines 53, 60, 67). -/
def foundLog : SourceKind → String → String
  | SourceKind.gdb, sdp => "Found Geodatabase: " ++ sdp
  | SourceKind.shp, sdp => "Found Shapefile: " ++ sdp
  | SourceKind.csv, sdp => "Found CSV: " ++ sdp

/-- The trigger event: `event['bucket']` and `event['name']`. -/
structure TriggerEvent where
  bucket : String
  name : String
deriving Repr, DecidableEq

/-- The behaviour of the external effects during one invocation.  A `some msg`
in an `*Err` field means the corresponding call raises an exception with that
text; `convertCreatesOutput` says whether `gdal.VectorTranslate` leaves a file
at the temporary output path; `partialFileOnDownloadErr` says whether a failing
`download_to_filename` leaves a partial local file behind. -/
structure Env where
  fileList : List String
  downloadErr : Option String
  partialFileOnDownloadErr : Bool
  openErr : Option String
  convertErr : Option String
  convertCreatesOutput : Bool
  uploadErr : Option String
  outputBucket : String
deriving Repr, DecidableEq

/-- How the invocation ends: a normal Python `return`, or an exception
propagating out of the function to the caller. -/
inductive Termination where
  | returned
  | raised (msg : String)
deriving Repr, DecidableEq

/-- Observable outcome of one invocation. -/
structure RunResult where
  term : Termination
  log : List String
  sourceDataPath : Option String
  /-- does `/tmp/{file_name}` still exist at the end -/
  localZipExists : Bool
  /-- does `/tmp/{stem}.parquet` still exist at the end -/
  tempOutputExists : Bool
  downloadAttempted : Bool
  convertAttempted : Bool
  uploadAttempts : Nat
  uploadedObject : Option (String × String)
deriving Repr, DecidableEq

/-- Line-by-line embedding of `convert_to_geoparquet` (main.py lines 14-127).
The `try/except/finally` around download and inspection (lines 37-76) catches
every exception and removes the local zip copy on every exit path; the upload
(line 123) is outside any `try`, so an upload exception propagates and the
`os.remove(temp_output_path)` on line 127 is not reached. -/
def convert_to_geoparquet (env : Env) (event : TriggerEvent) : RunResult :=
  let bucket_name := event.bucket
  let file_name := event.name
  -- lines 25-27: only process zip files
  if ¬ (strEndsWith (lowerStr file_name) ".zip" = true) then
    { term := Termination.returned
      log := ["File " ++ file_name ++ " is not a zip file. Skipping."]
      sourceDataPath := none
      localZipExists := false
      tempOutputExists := false
      downloadAttempted := false
      convertAttempted := false
      uploadAttempts := 0
      uploadedObject := none }
  else
    let log1 := ["Processing file: " ++ file_name ++ " from bucket: " ++
      bucket_name ++ "."]
    let gcsZipPath := gcs_zip_path bucket_name file_name
    match env.downloadErr with
    | some e =>
        -- line 43 raises; except (69-71) logs and returns; finally (73-76)
        -- removes the partial copy if one was created
        { term := Termination.returned
          log := log1 ++ ["Error inspecting zip file " ++ file_name ++ ": " ++ e]
          sourceDataPath := none
          localZipExists := false
          tempOutputExists := false
          downloadAttempted := true
          convertAttempted := false
          uploadAttempts := 0
          uploadedObject := none }
    | none =>
      match env.openErr with
      | some e =>
          -- line 46/47 raises; same except + finally path
          { term := Termination.returned
            log := log1 ++ ["Error inspecting zip file " ++ file_name ++ ": " ++ e]
            sourceDataPath := none
            localZipExists := false
            tempOutputExists := false
            downloadAttempted := true
            convertAttempted := false
            uploadAttempts := 0
            uploadedObject := none }
      | none =>
        match selectSource gcsZipPath env.fileList with
        | none =>
            -- lines 78-80: no convertible source
            { term := Termination.returned
              log := log1 ++
                ["No convertible data source (GDB, Shapefile, CSV) found in " ++
                  file_name ++ "."]
              sourceDataPath := none
              localZipExists := false
              tempOutputExists := false
              downloadAttempted := true
              convertAttempted := false
              uploadAttempts := 0
              uploadedObject := none }
        | some (k, source_data_path) =>
          let log2 := log1 ++ [foundLog k source_data_path]
          -- lines 83-86
          let output_filename_stem := pathStem file_name
          let temp_output_path := "/tmp/" ++ output_filename_stem ++ ".parquet"
          let log3 := log2 ++
            ["Converting " ++ source_data_path ++ " to " ++ temp_output_path ++
              "..."]
          match env.convertErr with
          | some e =>
              -- lines 109-111: conversion error caught, logged, return
              { term := Termination.returned
                log := log3 ++ ["Error during GDAL conversion: " ++ e]
                sourceDataPath := some source_data_path
                localZipExists := false
                tempOutputExists := env.convertCreatesOutput
                downloadAttempted := true
                convertAttempted := true
                uploadAttempts := 0
                uploadedObject := none }
          | none =>
            let log4 := log3 ++ ["Conversion successful."]
            -- lines 114-116: re-verify the output file exists
            if ¬ (env.convertCreatesOutput = true) then
              { term := Termination.returned
                log := log4 ++ ["Conversion failed, output file not created."]
                sourceDataPath := some source_data_path
                localZipExists := false
                tempOutputExists := false
                downloadAttempted := true
                convertAttempted := true
                uploadAttempts := 0
                uploadedObject := none }
            else
              -- lines 118-127
              let output_blob_name := output_filename_stem ++ ".parquet"
              let log5 := log4 ++
                ["Uploading " ++ output_blob_name ++ " to bucket " ++
                  env.outputBucket ++ "..."]
              match env.uploadErr with
              | some e =>
                  -- line 123 raises outside any try: propagates, no cleanup
                  { term := Termination.raised e
                    log := log5
                    sourceDataPath := some source_data_path
                    localZipExists := false
                    tempOutputExists := true
                    downloadAttempted := true
                    convertAttempted := true
                    uploadAttempts := 1
                    uploadedObject := none }
              | none =>
                  { term := Termination.returned
                    log := log5 ++ ["Upload complete."]
                    sourceDataPath := some source_data_path
                    localZipExists := false
                    tempOutputExists := false
                    downloadAttempted := true
                    convertAttempted := true
                    uploadAttempts := 1
                    uploadedObject := some (env.outputBucket, output_blob_name) }

/-- A fully successful environment for scratch experiments. -/
def okEnv (files : List String) : Env :=
  { fileList := files
    downloadErr := none
    partialFileOnDownloadErr := false
    openErr := none
    convertErr := none
    convertCreatesOutput := true
    uploadErr := none
    outputBucket := "out-bucket" }

example : pathParentStr "parcels_2024.gdb/" = "." := by decide
example : pathParentStr "sub/parcels_2024.gdb/" = "sub" := by decide
example : pathStem "roads.zip" = "roads" := by decide
example :
    selectSource "Z" ["a.gdb/", "b.shp", "c.csv"] =
      some (SourceKind.gdb, "Z/.") := by decide
example : selectSource "Z" ["b.shp", "c.csv"] =
      some (SourceKind.shp, "Z/b.shp") := by decide
example : selectSource "Z" ["c.csv"] = none := by decide

/-! ## Claims -/

/-- C6: for every trigger event whose object name does not end with `.zip`
(case-insensitively, as the code checks), the function performs no download,
no conversion and no upload, logs the skip message, and returns immediately
with no side effects. -/
theorem C6_non_zip_is_skipped (env : Env) (ev : TriggerEvent)
    (h : strEndsWith (lowerStr ev.name) ".zip" = false) :
    convert_to_geoparquet env ev =
      { term := Termination.returned
        log := ["File " ++ ev.name ++ " is not a zip file. Skipping."]
        sourceDataPath := none
        localZipExists := false
        tempOutputExists := false
        downloadAttempted := false
        convertAttempted := false
        uploadAttempts := 0
        uploadedObject := none } := by
  simp [convert_to_geoparquet, h]

/-- Witness for C6 at the concrete name `"roads.txt"`. -/
theorem C6_non_zip_is_skipped_witness :
    strEndsWith (lowerStr "roads.txt") ".zip" = false ∧
      convert_to_geoparquet (okEnv ["roads.shp"])
          { bucket := "b", name := "roads.txt" } =
        { term := Termination.returned
          log := ["File " ++ "roads.txt" ++ " is not a zip file. Skipping."]
          sourceDataPath := none
          localZipExists := false
          tempOutputExists := false
          downloadAttempted := false
          convertAttempted := false
          uploadAttempts := 0
          uploadedObject := none } :=
  ⟨by decide,
    C6_non_zip_is_skipped (okEnv ["roads.shp"])
      { bucket := "b", name := "roads.txt" } (by decide)⟩

/-- C4: every invocation that reaches the download step (the object name ends
in `.zip`) ends with the local archive copy absent from scratch storage: the
`finally` block removes it on every exit path through the inspection block, and
no later step recreates it. -/
theorem C4_downloaded_zip_removed (env : Env) (ev : TriggerEvent)
    (h : strEndsWith (lowerStr ev.name) ".zip" = true) :
    (convert_to_geoparquet env ev).localZipExists = false := by
  unfold convert_to_geoparquet
  simp only [h]
  repeat' split
  all_goals rfl

/-- Witness for C4 on a successful end-to-end run. -/
theorem C4_downloaded_zip_removed_witness :
    strEndsWith (lowerStr "roads.zip") ".zip" = true ∧
      (convert_to_geoparquet (okEnv ["roads.shp"])
          { bucket := "b", name := "roads.zip" }).localZipExists = false :=
  ⟨by decide,
    C4_downloaded_zip_removed (okEnv ["roads.shp"])
      { bucket := "b", name := "roads.zip" } (by decide)⟩

/-- C2: whenever the entry list contains a geodatabase-marker entry, the
priority scan selects the first such entry as the source (kind `gdb`, path
built from that entry), regardless of any shapefile or CSV entries also
present: the shapefile and CSV checks are never reached. -/
theorem C2_gdb_priority (gcs : String) (fl : List String) (g : String)
    (hg : g ∈ fl) (hk : isGdbEntry g = true) :
    ∃ g0, fl.find? isGdbEntry = some g0 ∧ isGdbEntry g0 = true ∧
      selectSource gcs fl =
        some (SourceKind.gdb, gcs ++ "/" ++ pathParentStr g0) := by
  have hsome : (fl.find? isGdbEntry).isSome := by
    rw [List.find?_isSome]
    exact ⟨g, hg, hk⟩
  obtain ⟨g0, hg0⟩ := Option.isSome_iff_exists.mp hsome
  exact ⟨g0, hg0, List.find?_some hg0, by simp [selectSource, hg0]⟩

/-- Witness for C2: a geodatabase entry wins over shapefile and CSV entries. -/
theorem C2_gdb_priority_witness :
    ∃ g0, (["parcels_2024.gdb/", "parcels_2024.shp", "d.csv"].find? isGdbEntry)
        = some g0 ∧ isGdbEntry g0 = true ∧
      selectSource "Z" ["parcels_2024.gdb/", "parcels_2024.shp", "d.csv"] =
        some (SourceKind.gdb, "Z" ++ "/" ++ pathParentStr g0) :=
  C2_gdb_priority "Z" ["parcels_2024.gdb/", "parcels_2024.shp", "d.csv"]
    "parcels_2024.gdb/" (by decide) (by decide)

/-- C5: every selected source path has the composed form
`/vsizip//vsigs/<bucket>/<name>/<intra>`, where `<intra>` is the matched
entry's path for a shapefile or CSV and the parent directory of the matched
marker entry for a geodatabase. -/
theorem C5_source_path_composition (bucket name : String) (fl : List String)
    (k : SourceKind) (p : String)
    (h : selectSource (gcs_zip_path bucket name) fl = some (k, p)) :
    ∃ e, e ∈ fl ∧
      ((k = SourceKind.gdb ∧ isGdbEntry e = true ∧
          p = "/vsizip//vsigs/" ++ bucket ++ "/" ++ name ++ "/" ++
            pathParentStr e) ∨
        (k = SourceKind.shp ∧ isShpEntry e = true ∧
          p = "/vsizip//vsigs/" ++ bucket ++ "/" ++ name ++ "/" ++ e) ∨
        (k = SourceKind.csv ∧ isCsvEntry e = true ∧
          p = "/vsizip//vsigs/" ++ bucket ++ "/" ++ name ++ "/" ++ e)) := by
  unfold selectSource at h
  cases hg : fl.find? isGdbEntry with
  | some g =>
    rw [hg] at h
    simp only [Option.some.injEq, Prod.mk.injEq] at h
    exact ⟨g, List.mem_of_find?_eq_some hg,
      Or.inl ⟨h.1.symm, List.find?_some hg, by rw [← h.2]; rfl⟩⟩
  | none =>
    rw [hg] at h
    simp only [Option.isNone_none, if_true] at h
    cases hs : fl.find? isShpEntry with
    | some s =>
      rw [hs] at h
      simp only [Option.some.injEq, Prod.mk.injEq] at h
      exact ⟨s, List.mem_of_find?_eq_some hs,
        Or.inr (Or.inl ⟨h.1.symm, List.find?_some hs, by rw [← h.2]; rfl⟩)⟩
    | none =>
      rw [hs] at h
      exact absurd h (by simp)

/-- Witness for C5 at a shapefile archive. -/
theorem C5_source_path_composition_witness :
    ∃ e, e ∈ ["roads.shp"] ∧
      ((SourceKind.shp = SourceKind.gdb ∧ isGdbEntry e = true ∧
          "/vsizip//vsigs/b/roads.zip/roads.shp" =
            "/vsizip//vsigs/" ++ "b" ++ "/" ++ "roads.zip" ++ "/" ++
              pathParentStr e) ∨
        (SourceKind.shp = SourceKind.shp ∧ isShpEntry e = true ∧
          "/vsizip//vsigs/b/roads.zip/roads.shp" =
            "/vsizip//vsigs/" ++ "b" ++ "/" ++ "roads.zip" ++ "/" ++ e) ∨
        (SourceKind.shp = SourceKind.csv ∧ isCsvEntry e = true ∧
          "/vsizip//vsigs/b/roads.zip/roads.shp" =
            "/vsizip//vsigs/" ++ "b" ++ "/" ++ "roads.zip" ++ "/" ++ e)) :=
  C5_source_path_composition "b" "roads.zip" ["roads.shp"] SourceKind.shp
    "/vsizip//vsigs/b/roads.zip/roads.shp" (by decide)

/-- C1 (failing input): an archive `roads.zip` containing only `roads.csv` —
no geodatabase marker, no shapefile — is not converted.  Because the CSV check
sits in a second `elif not source_data_path` branch that is shadowed by the
first, the locator finds no source, logs the no-source message, and the
pipeline never produces or uploads `roads.parquet`, contradicting the claimed
CSV scenario (and the code's own comment "If no GDB or SHP, look for a CSV
file"). -/
theorem C1_csv_only_archive_not_converted :
    (convert_to_geoparquet (okEnv ["roads.csv"])
        { bucket := "bucket", name := "roads.zip" }).sourceDataPath = none ∧
    (convert_to_geoparquet (okEnv ["roads.csv"])
        { bucket := "bucket", name := "roads.zip" }).convertAttempted = false ∧
    (convert_to_geoparquet (okEnv ["roads.csv"])
        { bucket := "bucket", name := "roads.zip" }).uploadAttempts = 0 ∧
    (convert_to_geoparquet (okEnv ["roads.csv"])
        { bucket := "bucket", name := "roads.zip" }).uploadedObject = none ∧
    "No convertible data source (GDB, Shapefile, CSV) found in roads.zip." ∈
      (convert_to_geoparquet (okEnv ["roads.csv"])
        { bucket := "bucket", name := "roads.zip" }).log := by
  decide

/-- C3: any error raised while downloading the archive or while opening /
enumerating it is caught by the `except` clause: the invocation returns
normally (no exception propagates), logs the inspection-error line, and
performs no conversion and no upload. -/
theorem C3_inspect_errors_caught (env : Env) (ev : TriggerEvent)
    (hzip : strEndsWith (lowerStr ev.name) ".zip" = true)
    (herr : env.downloadErr.isSome = true ∨ env.openErr.isSome = true) :
    (convert_to_geoparquet env ev).term = Termination.returned ∧
    (convert_to_geoparquet env ev).convertAttempted = false ∧
    (convert_to_geoparquet env ev).uploadAttempts = 0 ∧
    (convert_to_geoparquet env ev).uploadedObject = none ∧
    ∃ e, ("Error inspecting zip file " ++ ev.name ++ ": " ++ e) ∈
      (convert_to_geoparquet env ev).log := by
  cases hd : env.downloadErr with
  | some e =>
    refine ⟨?_, ?_, ?_, ?_, e, ?_⟩ <;>
      simp [convert_to_geoparquet, hzip, hd]
  | none =>
    cases ho : env.openErr with
    | some e =>
      refine ⟨?_, ?_, ?_, ?_, e, ?_⟩ <;>
        simp [convert_to_geoparquet, hzip, hd, ho]
    | none =>
      rw [hd, ho] at herr
      simp at herr

/-- Witness for C3: a failing download is caught and logged. -/
theorem C3_inspect_errors_caught_witness :
    (convert_to_geoparquet
        { okEnv ["roads.shp"] with downloadErr := some "boom" }
        { bucket := "b", name := "roads.zip" }).term = Termination.returned ∧
    (convert_to_geoparquet
        { okEnv ["roads.shp"] with downloadErr := some "boom" }
        { bucket := "b", name := "roads.zip" }).convertAttempted = false ∧
    (convert_to_geoparquet
        { okEnv ["roads.shp"] with downloadErr := some "boom" }
        { bucket := "b", name := "roads.zip" }).uploadAttempts = 0 ∧
    (convert_to_geoparquet
        { okEnv ["roads.shp"] with downloadErr := some "boom" }
        { bucket := "b", name := "roads.zip" }).uploadedObject = none ∧
    ∃ e, ("Error inspecting zip file " ++ "roads.zip" ++ ": " ++ e) ∈
      (convert_to_geoparquet
        { okEnv ["roads.shp"] with downloadErr := some "boom" }
        { bucket := "b", name := "roads.zip" }).log :=
  C3_inspect_errors_caught
    { okEnv ["roads.shp"] with downloadErr := some "boom" }
    { bucket := "b", name := "roads.zip" } (by decide) (Or.inl (by decide))

/-- C7: when download, open and conversion all proceed without raising but the
output file does not exist afterwards, the invocation logs the
conversion-failed message and returns without attempting any upload. -/
theorem C7_missing_output_no_upload (env : Env) (ev : TriggerEvent)
    (hzip : strEndsWith (lowerStr ev.name) ".zip" = true)
    (hdl : env.downloadErr = none) (hop : env.openErr = none)
    (k : SourceKind) (sdp : String)
    (hsel : selectSource (gcs_zip_path ev.bucket ev.name) env.fileList =
      some (k, sdp))
    (hcv : env.convertErr = none) (hout : env.convertCreatesOutput = false) :
    (convert_to_geoparquet env ev).term = Termination.returned ∧
    (convert_to_geoparquet env ev).uploadAttempts = 0 ∧
    (convert_to_geoparquet env ev).uploadedObject = none ∧
    "Conversion failed, output file not created." ∈
      (convert_to_geoparquet env ev).log := by
  refine ⟨?_, ?_, ?_, ?_⟩ <;>
    simp [convert_to_geoparquet, hzip, hdl, hop, hsel, hcv, hout]

/-- Witness for C7: GDAL returns without creating the output file. -/
theorem C7_missing_output_no_upload_witness :
    (convert_to_geoparquet
        { okEnv ["roads.shp"] with convertCreatesOutput := false }
        { bucket := "b", name := "roads.zip" }).term = Termination.returned ∧
    (convert_to_geoparquet
        { okEnv ["roads.shp"] with convertCreatesOutput := false }
        { bucket := "b", name := "roads.zip" }).uploadAttempts = 0 ∧
    (convert_to_geoparquet
        { okEnv ["roads.shp"] with convertCreatesOutput := false }
        { bucket := "b", name := "roads.zip" }).uploadedObject = none ∧
    "Conversion failed, output file not created." ∈
      (convert_to_geoparquet
        { okEnv ["roads.shp"] with convertCreatesOutput := false }
        { bucket := "b", name := "roads.zip" }).log :=
  C7_missing_output_no_upload
    { okEnv ["roads.shp"] with convertCreatesOutput := false }
    { bucket := "b", name := "roads.zip" } (by decide) rfl rfl
    SourceKind.shp "/vsizip//vsigs/b/roads.zip/roads.shp" (by decide) rfl rfl

/-- C8: an error raised by the upload is not caught anywhere in the function:
the invocation terminates by raising that error to the caller, exactly one
upload attempt is made (no retry), and no object is recorded as uploaded. -/
theorem C8_upload_error_propagates (env : Env) (ev : TriggerEvent) (e : String)
    (hzip : strEndsWith (lowerStr ev.name) ".zip" = true)
    (hdl : env.downloadErr = none) (hop : env.openErr = none)
    (k : SourceKind) (sdp : String)
    (hsel : selectSource (gcs_zip_path ev.bucket ev.name) env.fileList =
      some (k, sdp))
    (hcv : env.convertErr = none) (hout : env.convertCreatesOutput = true)
    (hup : env.uploadErr = some e) :
    (convert_to_geoparquet env ev).term = Termination.raised e ∧
    (convert_to_geoparquet env ev).uploadAttempts = 1 ∧
    (convert_to_geoparquet env ev).uploadedObject = none := by
  refine ⟨?_, ?_, ?_⟩ <;>
    simp [convert_to_geoparquet, hzip, hdl, hop, hsel, hcv, hout, hup]

/-- Witness for C8: a failing upload surfaces as a raised fault. -/
theorem C8_upload_error_propagates_witness :
    (convert_to_geoparquet
        { okEnv ["roads.shp"] with uploadErr := some "net down" }
        { bucket := "b", name := "roads.zip" }).term =
      Termination.raised "net down" ∧
    (convert_to_geoparquet
        { okEnv ["roads.shp"] with uploadErr := some "net down" }
        { bucket := "b", name := "roads.zip" }).uploadAttempts = 1 ∧
    (convert_to_geoparquet
        { okEnv ["roads.shp"] with uploadErr := some "net down" }
        { bucket := "b", name := "roads.zip" }).uploadedObject = none :=
  C8_upload_error_propagates
    { okEnv ["roads.shp"] with uploadErr := some "net down" }
    { bucket := "b", name := "roads.zip" } "net down" (by decide) rfl rfl
    SourceKind.shp "/vsizip//vsigs/b/roads.zip/roads.shp" (by decide) rfl rfl
    rfl

/-- C9: when the archive opens fine but its entry list contains no
geodatabase-marker entry, no shapefile entry and no CSV entry, the invocation
logs the no-convertible-source message and returns without invoking the
converter and without any upload. -/
theorem C9_no_source_logged (env : Env) (ev : TriggerEvent)
    (hzip : strEndsWith (lowerStr ev.name) ".zip" = true)
    (hdl : env.downloadErr = none) (hop : env.openErr = none)
    (hg : ∀ f ∈ env.fileList, isGdbEntry f = false)
    (hs : ∀ f ∈ env.fileList, isShpEntry f = false)
    (hc : ∀ f ∈ env.fileList, isCsvEntry f = false) :
    (convert_to_geoparquet env ev).term = Termination.returned ∧
    (convert_to_geoparquet env ev).convertAttempted = false ∧
    (convert_to_geoparquet env ev).uploadAttempts = 0 ∧
    (convert_to_geoparquet env ev).uploadedObject = none ∧
    ("No convertible data source (GDB, Shapefile, CSV) found in " ++
      ev.name ++ ".") ∈ (convert_to_geoparquet env ev).log := by
  have hg' : env.fileList.find? isGdbEntry = none := by
    rw [List.find?_eq_none]
    intro x hx
    simp [hg x hx]
  have hs' : env.fileList.find? isShpEntry = none := by
    rw [List.find?_eq_none]
    intro x hx
    simp [hs x hx]
  have hsel : selectSource (gcs_zip_path ev.bucket ev.name) env.fileList =
      none := by
    simp [selectSource, hg', hs']
  refine ⟨?_, ?_, ?_, ?_, ?_⟩ <;>
    simp [convert_to_geoparquet, hzip, hdl, hop, hsel]

/-- Witness for C9: an archive holding only an unrelated text file. -/
theorem C9_no_source_logged_witness :
    (convert_to_geoparquet (okEnv ["readme.txt"])
        { bucket := "b", name := "empty.zip" }).term =
      Termination.returned ∧
    (convert_to_geoparquet (okEnv ["readme.txt"])
        { bucket := "b", name := "empty.zip" }).convertAttempted = false ∧
    (convert_to_geoparquet (okEnv ["readme.txt"])
        { bucket := "b", name := "empty.zip" }).uploadAttempts = 0 ∧
    (convert_to_geoparquet (okEnv ["readme.txt"])
        { bucket := "b", name := "empty.zip" }).uploadedObject = none ∧
    ("No convertible data source (GDB, Shapefile, CSV) found in " ++
      "empty.zip" ++ ".") ∈ (convert_to_geoparquet (okEnv ["readme.txt"])
        { bucket := "b", name := "empty.zip" }).log :=
  C9_no_source_logged (okEnv ["readme.txt"])
    { bucket := "b", name := "empty.zip" } (by decide) rfl rfl
    (by decide) (by decide) (by decide)

/-- C10: on an invocation that reaches the upload step, the temporary parquet
file survives exactly when the upload raises: `os.remove(temp_output_path)` is
executed only after a successful upload. -/
theorem C10_temp_output_kept_on_upload_error (env : Env) (ev : TriggerEvent)
    (hzip : strEndsWith (lowerStr ev.name) ".zip" = true)
    (hdl : env.downloadErr = none) (hop : env.openErr = none)
    (k : SourceKind) (sdp : String)
    (hsel : selectSource (gcs_zip_path ev.bucket ev.name) env.fileList =
      some (k, sdp))
    (hcv : env.convertErr = none) (hout : env.convertCreatesOutput = true) :
    ((∃ e, env.uploadErr = some e) →
      (convert_to_geoparquet env ev).tempOutputExists = true) ∧
    (env.uploadErr = none →
      (convert_to_geoparquet env ev).tempOutputExists = false) := by
  constructor
  · rintro ⟨e, hup⟩
    simp [convert_to_geoparquet, hzip, hdl, hop, hsel, hcv, hout, hup]
  · intro hup
    simp [convert_to_geoparquet, hzip, hdl, hop, hsel, hcv, hout, hup]

/-- Witness for C10: with a failing upload the parquet file is kept. -/
theorem C10_temp_output_kept_on_upload_error_witness :
    ((∃ e, ({ okEnv ["roads.shp"] with
          uploadErr := some "net down" } : Env).uploadErr = some e) →
      (convert_to_geoparquet
        { okEnv ["roads.shp"] with uploadErr := some "net down" }
        { bucket := "b", name := "roads.zip" }).tempOutputExists = true) ∧
    (({ okEnv ["roads.shp"] with
          uploadErr := some "net down" } : Env).uploadErr = none →
      (convert_to_geoparquet
        { okEnv ["roads.shp"] with uploadErr := some "net down" }
        { bucket := "b", name := "roads.zip" }).tempOutputExists = false) :=
  C10_temp_output_kept_on_upload_error
    { okEnv ["roads.shp"] with uploadErr := some "net down" }
    { bucket := "b", name := "roads.zip" } (by decide) rfl rfl
    SourceKind.shp "/vsizip//vsigs/b/roads.zip/roads.shp" (by decide) rfl rfl

end UgsIngest
